import Mathlib

/-!
Verification development for the MiniMax TTS plugin (modular generation:
`src/api_client.py`, `src/voice_clone.py`, `src/components/*.py`,
`src/core/config_schema.py`).  Python dictionaries are embedded as
insertion-ordered association lists over a small JSON value type; the
stateful pending-TTS module is embedded as explicit state passing.
-/

/-- A JSON-like value, mirroring the Python dict/list/scalar values that
appear in the TTS request bodies.  Objects keep insertion order, as Python
dicts do.  Python floats are modelled as rationals. -/
inductive JVal where
  | s (v : String)
  | i (v : Int)
  | q (v : Rat)
  | b (v : Bool)
  | obj (fields : List (String × JVal))
  | arr (items : List JVal)

/-- Key lookup in an embedded Python dict (association list). -/
def jLookup (k : String) (fields : List (String × JVal)) : Option JVal :=
  List.lookup k fields

/-- The configuration values the plugin reads through `get_config`, one field
per `minimax.*` / related key, holding the value `get_config(key, default)`
returns (the host merges configured values with the schema defaults of
`src/core/config_schema.py`).  `emotion`/`sound_effects`/`audio_mix_url` use
`""` for "unset" (falsy in Python).  `pronunciation_dict` holds the result of
`json.loads` on the configured string (`none` models an empty string or a
decode failure, both of which omit the field). -/
structure Config where
  api_key : String
  voice_id : String
  base_url : String
  group_id : String
  model : String
  language_boost : String
  output_format : String
  emotion : String
  text_normalization : Bool
  english_normalization : Bool
  latex_read : Bool
  trailing_pause : Rat
  speed : Rat
  vol : Rat
  pitch : Int
  voice_modify_pitch : Option Int
  voice_modify_intensity : Option Int
  voice_modify_timbre : Option Int
  sound_effects : String
  sample_rate : Int
  bitrate : Int
  audio_format : String
  channel : Int
  stream_enabled : Bool
  max_retries : Nat
  retry_delay : Rat
  rate_limit_rpm : Int
  max_text_length : Nat
  async_enabled : Bool
  async_threshold : Nat
  timeout : Rat
  pronunciation_dict : Option JVal
  audio_mix_url : String
  audio_mix_start_time : Int
  audio_mix_end_time : Int
  audio_mix_volume : Rat
  audio_mix_repeat : Bool
  random_voice_probability : Rat

/-- `src/core/config_schema.py`: retryable API error codes. -/
def RETRYABLE_ERROR_CODES : List Int := [1001, 1002]

/-- `src/core/config_schema.py`: fatal API error codes (never retried). -/
def FATAL_ERROR_CODES : List Int := [1004, 1008]

/-- `src/core/config_schema.py`: the nine valid emotion tags. -/
def VALID_EMOTIONS : List String :=
  ["happy", "sad", "angry", "fearful", "disgusted",
   "surprised", "calm", "fluent", "whisper"]

/-- Two-digit zero padding for the fractional part of the pause marker. -/
def pad2 (n : Nat) : String :=
  if n < 10 then "0" ++ toString n else toString n

/-- Embedding of Python `f"{x:.2f}"` for the nonnegative values produced by
the pause clamp: round to hundredths and print with exactly two decimals. -/
def fmt2 (x : Rat) : String :=
  let n : Nat := (round (x * 100) : Int).toNat
  toString (n / 100) ++ "." ++ pad2 (n % 100)

/-- `api_client.py` line 87: `max(0.01, min(99.99, trailing_pause))`. -/
def clampPause (p : Rat) : Rat := max (1 / 100 : Rat) (min (9999 / 100 : Rat) p)

/-- `api_client.py` lines 84-88: append the trailing pause marker
`<#S.SS#>` when the configured pause is positive. -/
def processed_text (cfg : Config) (text : String) : String :=
  if 0 < cfg.trailing_pause then
    text ++ "<#" ++ fmt2 (clampPause cfg.trailing_pause) ++ "#>"
  else text

/-- `api_client.py` line 98: `override_emotion or get_config("minimax.emotion",
None)` followed by the line-99 truthiness test; returns the emotion that ends
up in `voice_setting`, or `none` when the field is omitted. -/
def pyOrEmotion (override_emotion : Option String) (cfg_emotion : String) :
    Option String :=
  let fromConfig : Option String :=
    if cfg_emotion = "" then none else some cfg_emotion
  match override_emotion with
  | some e => if e = "" then fromConfig else some e
  | none => fromConfig

/-- `api_client.py` lines 91-100: the `voice_setting` sub-object. -/
def voice_setting_fields (cfg : Config) (voice_id : String)
    (override_emotion : Option String) : List (String × JVal) :=
  [("voice_id", .s voice_id),
   ("speed", .q cfg.speed),
   ("vol", .q cfg.vol),
   ("pitch", .i cfg.pitch)]
  ++ (match pyOrEmotion override_emotion cfg.emotion with
      | some e => [("emotion", .s e)]
      | none => [])

/-- `api_client.py` lines 126-139: the optional `voice_modify` sub-object
(fields included only when configured non-`None` and non-zero / non-empty). -/
def voice_modify_fields (cfg : Config) : List (String × JVal) :=
  (match cfg.voice_modify_pitch with
   | some p => if p ≠ 0 then [("pitch", .i p)] else []
   | none => [])
  ++ (match cfg.voice_modify_intensity with
      | some v => if v ≠ 0 then [("intensity", .i v)] else []
      | none => [])
  ++ (match cfg.voice_modify_timbre with
      | some v => if v ≠ 0 then [("timbre", .i v)] else []
      | none => [])
  ++ (if cfg.sound_effects ≠ "" then [("sound_effects", .s cfg.sound_effects)]
      else [])

/-- `api_client.py` lines 109-114 and 155-164: the `audio_setting` sub-object,
with the `audio_mix` entry that `body.setdefault("audio_setting", {})` adds
to it when a mix URL is configured. -/
def audio_setting_fields (cfg : Config) : List (String × JVal) :=
  [("sample_rate", .i cfg.sample_rate),
   ("bitrate", .i cfg.bitrate),
   ("format", .s cfg.audio_format),
   ("channel", .i cfg.channel)]
  ++ (if cfg.audio_mix_url ≠ "" then
        [("audio_mix", .arr [.obj
          [("audio_url", .s cfg.audio_mix_url),
           ("start_time", .i cfg.audio_mix_start_time),
           ("end_time", .i cfg.audio_mix_end_time),
           ("volume", .q cfg.audio_mix_volume),
           ("repeat", .b cfg.audio_mix_repeat)]])]
      else [])

/-- `MiniMaxAPIClient._build_request_body` (`api_client.py` lines 70-166):
the full request body, keys in Python insertion order. -/
def build_request_body (cfg : Config) (text voice_id : String)
    (override_emotion : Option String) : List (String × JVal) :=
  [("model", .s cfg.model),
   ("text", .s (processed_text cfg text)),
   ("stream", .b false),
   ("language_boost", .s cfg.language_boost),
   ("output_format", .s cfg.output_format),
   ("voice_setting", .obj (voice_setting_fields cfg voice_id override_emotion)),
   ("audio_setting", .obj (audio_setting_fields cfg))]
  ++ (if cfg.text_normalization then [("text_normalization", .b true)] else [])
  ++ (if cfg.english_normalization then [("english_normalization", .b true)]
      else [])
  ++ (if cfg.latex_read then [("latex_read", .b true)] else [])
  ++ (if (voice_modify_fields cfg).isEmpty then []
      else [("voice_modify", .obj (voice_modify_fields cfg))])
  ++ (match cfg.pronunciation_dict with
      | some (.obj m) => [("pronunciation_dict", .obj m)]
      | _ => [])

/-- `api_client.py` lines 221-223: truncate the input text to
`minimax.max_text_length` characters (Python slice `text[:max_text_length]`). -/
def truncate_text (cfg : Config) (text : String) : String :=
  if text.length > cfg.max_text_length then text.take cfg.max_text_length
  else text

/-- The observable outcome of one HTTP attempt inside `synthesize`: a response
(HTTP status, `base_resp.status_code`, `data.audio`), a timeout
(`asyncio.TimeoutError`), a transport error (`aiohttp.ClientError`), or any
other raised exception. -/
inductive AttemptResult where
  | ok (httpStatus : Nat) (statusCode : Int) (audio : Option String)
  | timeout
  | transportError
  | otherError

/-- Value of a hex character, as accepted by Python `bytes.fromhex`. -/
def hexDigitVal (c : Char) : Option Nat :=
  if '0' ≤ c ∧ c ≤ '9' then some (c.toNat - '0'.toNat)
  else if 'a' ≤ c ∧ c ≤ 'f' then some (c.toNat - 'a'.toNat + 10)
  else if 'A' ≤ c ∧ c ≤ 'F' then some (c.toNat - 'A'.toNat + 10)
  else none

/-- Pairwise hex decoding (`bytes.fromhex`; `ValueError`, i.e. `none`, on an
odd length or a non-hex character). -/
def hexDecodeList : List Char → Option (List Nat)
  | [] => some []
  | [_] => none
  | c1 :: c2 :: rest =>
    match hexDigitVal c1, hexDigitVal c2, hexDecodeList rest with
    | some hi, some lo, some bs => some ((hi * 16 + lo) :: bs)
    | _, _, _ => none

/-- `bytes.fromhex` on a string. -/
def hexDecode (s : String) : Option (List Nat) := hexDecodeList s.data

/-- A successful synthesis result: an audio file written to the cache (the
bytes and the configured extension; the random UUID filename is abstracted
away) or, in `url` output mode, the returned URL. -/
inductive SynthOut where
  | file (bytes : List Nat) (fmt : String)
  | url (u : String)

/-- Ghost instrumentation for `synthesize`: how many HTTP attempts were
issued and which backoff sleeps were performed, in order. -/
structure SynthTrace where
  requests : Nat
  sleeps : List Rat
deriving DecidableEq

/-- `api_client.py` lines 274-295: the success branch of `synthesize` once
`base_resp.status_code == 0` (note `if not audio_value` treats both a missing
and an empty `data.audio` as failure). -/
def handle_sync_success (cfg : Config) (audio : Option String) : Option SynthOut :=
  match audio with
  | none => none
  | some a =>
    if a = "" then none
    else if cfg.output_format = "hex" then
      match hexDecode a with
      | some bs => some (.file bs cfg.audio_format)
      | none => none
    else if cfg.output_format = "url" then some (.url a)
    else none

/-- The retry loop of `MiniMaxAPIClient.synthesize` (`api_client.py` lines
237-312), with `resp n` giving the outcome of attempt `n` (1-based).  `fuel`
counts the remaining loop iterations, so the loop runs for attempts
`1 .. max_retries`; falling off the loop returns `None` (line 312). -/
def synthesize_loop (cfg : Config) (resp : Nat → AttemptResult) :
    Nat → Nat → SynthTrace → Option SynthOut × SynthTrace
  | 0, _, tr => (none, tr)
  | fuel + 1, attempt, tr =>
    let tried : SynthTrace := ⟨tr.requests + 1, tr.sleeps⟩
    let slept : SynthTrace :=
      ⟨tried.requests, tried.sleeps ++ [cfg.retry_delay * 2 ^ (attempt - 1)]⟩
    match resp attempt with
    | .timeout =>
      if attempt < cfg.max_retries then
        synthesize_loop cfg resp fuel (attempt + 1) slept
      else synthesize_loop cfg resp fuel (attempt + 1) tried
    | .transportError =>
      if attempt < cfg.max_retries then
        synthesize_loop cfg resp fuel (attempt + 1) slept
      else synthesize_loop cfg resp fuel (attempt + 1) tried
    | .otherError => (none, tried)
    | .ok httpStatus statusCode audio =>
      if httpStatus ≠ 200 then
        if attempt < cfg.max_retries then
          synthesize_loop cfg resp fuel (attempt + 1) slept
        else synthesize_loop cfg resp fuel (attempt + 1) tried
      else if statusCode ≠ 0 then
        if statusCode ∈ FATAL_ERROR_CODES then (none, tried)
        else if statusCode ∈ RETRYABLE_ERROR_CODES ∧ attempt < cfg.max_retries
        then synthesize_loop cfg resp fuel (attempt + 1) slept
        else (none, tried)
      else (handle_sync_success cfg audio, tried)

/-- `MiniMaxAPIClient.synthesize` (`api_client.py` lines 192-312): credential
checks, text truncation, then the retry loop.  The second component is the
ghost attempt/sleep trace. -/
def synthesize (cfg : Config) (text voice_id : String)
    (override_emotion : Option String) (resp : Nat → AttemptResult) :
    Option SynthOut × SynthTrace :=
  if cfg.api_key = "" then (none, ⟨0, []⟩)
  else if voice_id = "" then (none, ⟨0, []⟩)
  else
    let _body := build_request_body cfg (truncate_text cfg text) voice_id
      override_emotion
    synthesize_loop cfg resp cfg.max_retries 1 ⟨0, []⟩

/-- The three synthesis strategies `auto_synthesize` can dispatch to. -/
inductive SynthMode where
  | async
  | stream
  | sync
deriving DecidableEq

/-- The dispatch decision of `MiniMaxAPIClient.auto_synthesize`
(`api_client.py` lines 609-635). -/
def choose_mode (cfg : Config) (text : String) : SynthMode :=
  if cfg.async_enabled = true ∧ text.length > cfg.async_threshold then .async
  else if cfg.stream_enabled = true then .stream
  else .sync

/-- Assignment to an existing key of an embedded dict
(`body["stream"] = ...`). -/
def jSet (k : String) (v : JVal) (fields : List (String × JVal)) :
    List (String × JVal) :=
  fields.map (fun p => if p.1 = k then (k, v) else p)

/-- The request body `auto_synthesize` sends for a given text/voice/override:
the sync and stream paths truncate the text first (`synthesize`,
`synthesize_stream`), the stream path then sets `stream` to true (line 343),
the async path does not truncate and re-sets `stream` to false (line 461). -/
def auto_synthesize_body (cfg : Config) (text voice_id : String)
    (override_emotion : Option String) : List (String × JVal) :=
  match choose_mode cfg text with
  | .async => jSet "stream" (.b false)
      (build_request_body cfg text voice_id override_emotion)
  | .stream => jSet "stream" (.b true)
      (build_request_body cfg (truncate_text cfg text) voice_id override_emotion)
  | .sync => build_request_body cfg (truncate_text cfg text) voice_id
      override_emotion

/-- The process-wide pending-TTS state of `src/components/tts_tool.py`
(lines 14-18): the pending set `_tts_pending_chats`, the per-chat emotion
dict `_tts_pending_emotions` (an association list here), and the
always-voice set `_tts_always_chats`. -/
structure TTSState where
  pending : Finset String
  emotions : List (String × String)
  always : Finset String

/-- The state at process start: all three collections empty. -/
def initial_tts_state : TTSState := ⟨∅, [], ∅⟩

/-- `mark_tts_pending` (`tts_tool.py` lines 21-28): add the chat to the
pending set; record the emotion when it is truthy and one of the nine valid
tags, otherwise pop any previously recorded emotion for the chat. -/
def mark_tts_pending (s : TTSState) (chat_id : String)
    (emotion : Option String) : TTSState :=
  let pending := insert chat_id s.pending
  match emotion with
  | some e =>
    if e ≠ "" ∧ e ∈ VALID_EMOTIONS then
      { s with pending,
               emotions := (chat_id, e) :: s.emotions.filter
                 (fun p => p.1 != chat_id) }
    else
      { s with pending,
               emotions := s.emotions.filter (fun p => p.1 != chat_id) }
  | none =>
    { s with pending,
             emotions := s.emotions.filter (fun p => p.1 != chat_id) }

/-- `consume_tts_pending` (`tts_tool.py` lines 31-43): atomically
check-and-clear; returns `(was_pending, emotion, new state)`. -/
def consume_tts_pending (s : TTSState) (chat_id : String) :
    Bool × Option String × TTSState :=
  if chat_id ∈ s.pending then
    (true, s.emotions.lookup chat_id,
     { s with pending := s.pending.erase chat_id,
              emotions := s.emotions.filter (fun p => p.1 != chat_id) })
  else (false, none, s)

/-- `is_tts_pending` (`tts_tool.py` lines 46-48). -/
def is_tts_pending (s : TTSState) (chat_id : String) : Bool :=
  decide (chat_id ∈ s.pending)

/-- `toggle_always_voice` (`tts_tool.py` lines 51-59): flip membership in the
always-voice set; returns `(new membership, new state)`. -/
def toggle_always_voice (s : TTSState) (chat_id : String) : Bool × TTSState :=
  if chat_id ∈ s.always then
    (false, { s with always := s.always.erase chat_id })
  else
    (true, { s with always := insert chat_id s.always })

/-- `is_always_voice` (`tts_tool.py` lines 62-64). -/
def is_always_voice (s : TTSState) (chat_id : String) : Bool :=
  decide (chat_id ∈ s.always)

/-- The `enable=False` cancellation path of `MiniMaxTTSTool.execute`
(`tts_tool.py` lines 133-141): discard the pending flag and pop the
emotion. -/
def cancel_tts_pending (s : TTSState) (chat_id : String) : TTSState :=
  { s with pending := s.pending.erase chat_id,
           emotions := s.emotions.filter (fun p => p.1 != chat_id) }

/-- The shared-state invariant: every chat with a recorded pending emotion is
also a member of the pending set. -/
def tts_invariant (s : TTSState) : Prop :=
  ∀ p ∈ s.emotions, p.1 ∈ s.pending

instance (s : TTSState) : Decidable (tts_invariant s) :=
  List.decidableBAll _ s.emotions

/-- One cloned-voice record, as far as the embedded operations inspect it:
`created_at` and `last_used_at` hold the result of
`datetime.fromisoformat` on the stored strings as a timestamp (`none`
models a missing or unparsable value). -/
structure VoiceInfo where
  created_at : Option Rat
  last_used_at : Option Rat
deriving DecidableEq

/-- The state owned by `VoiceCloneManager` (`src/voice_clone.py`): the
in-memory registry `_voices` (already loaded; an insertion-ordered
association list), the JSON file contents, and a ghost counter of how many
`_save` calls were issued. -/
structure MgrState where
  voices : List (String × VoiceInfo)
  stored : List (String × VoiceInfo)
  save_attempts : Nat
deriving DecidableEq

/-- `VoiceCloneManager.remove_voice` (`voice_clone.py` lines 83-89):
absent id returns `False` with no mutation and no save; present id deletes
and persists (`save_ok` models whether `_save_sync` succeeds). -/
def remove_voice (st : MgrState) (voice_id : String) (save_ok : Bool) :
    Bool × MgrState :=
  if (st.voices.lookup voice_id).isNone then (false, st)
  else
    let voices2 := st.voices.filter (fun p => p.1 != voice_id)
    (save_ok,
     { voices := voices2,
       stored := if save_ok then voices2 else st.stored,
       save_attempts := st.save_attempts + 1 })

/-- `VoiceCloneManager.check_expired_voices` (`voice_clone.py` lines 99-117):
ids whose parsed `created_at` is older than `now - warn_days` (in days;
timestamps here are in seconds); missing or unparsable dates are skipped. -/
def check_expired_voices (st : MgrState) (now : Rat) (warn_days : Rat) :
    List String :=
  let cutoff := now - warn_days * 86400
  (st.voices.filter (fun p =>
    match p.2.created_at with
    | some t => decide (t < cutoff)
    | none => false)).map (fun p => p.1)

/-- The methods `VoiceCloneManager` actually defines (`voice_clone.py`);
attribute lookup of any other name raises `AttributeError`. -/
def voice_clone_manager_methods : List String :=
  ["__init__", "_load", "_load_sync", "_save", "_save_sync",
   "get_voices", "voice_exists", "add_voice", "remove_voice", "touch_voice",
   "check_expired_voices", "upload_audio", "_read_file_sync", "clone_voice",
   "delete_voice_remote", "delete_voice_full"]

/-- `ListVoicesCommand.execute` (`src/components/clone_commands.py` lines
183-237): an empty registry reports "nothing cloned yet"; a non-empty
registry builds the listing and then calls
`mgr.check_unactivated_voices()` (line 224) — a method `VoiceCloneManager`
does not define, so Python raises `AttributeError`, the `except` on line 234
catches it, and the command returns `(False, str(e), True)`.  Result is
`(success, reason)`. -/
def list_voices_execute (st : MgrState) : Bool × String :=
  if st.voices.isEmpty then (true, "无音色")
  else if "check_unactivated_voices" ∈ voice_clone_manager_methods then
    (true, "列表已显示")
  else
    (false, "AttributeError: check_unactivated_voices")

/-- Python `re.sub` with pattern `【[^】]*】` replaced by `""`
(`tts_handler.py` line 78), on a fuel bound (callers pass the list length,
which always suffices): drop every bracketed annotation, i.e. a `【`
followed by non-`】` characters up to the next `】`.  A `【` with no later
closing bracket is kept verbatim, and then nothing after it can match
either, so the remainder is returned unchanged. -/
def strip_markers_fuel : Nat → List Char → List Char
  | 0, cs => cs
  | _ + 1, [] => []
  | fuel + 1, c :: rest =>
    if c = '【' then
      let inside := rest.takeWhile (fun d => d != '】')
      if inside.length < rest.length then
        strip_markers_fuel fuel (rest.drop (inside.length + 1))
      else
        c :: rest
    else
      c :: strip_markers_fuel fuel rest

/-- The `【…】`-stripping pass with enough fuel for its input. -/
def strip_markers (cs : List Char) : List Char :=
  strip_markers_fuel cs.length cs

/-- Python `re.sub` with pattern `\s+` replaced by a single space
(`tts_handler.py` line 79): collapse each maximal whitespace run to one
`' '`, tracking whether the previous character was whitespace (ASCII
whitespace; Python additionally treats some Unicode space characters as
`\s`, which no claim depends on). -/
def collapse_ws_from : Bool → List Char → List Char
  | _, [] => []
  | prev_ws, c :: rest =>
    if c.isWhitespace then
      if prev_ws then collapse_ws_from true rest
      else ' ' :: collapse_ws_from true rest
    else c :: collapse_ws_from false rest

/-- The whitespace-collapsing pass. -/
def collapse_ws (cs : List Char) : List Char := collapse_ws_from false cs

/-- Python `str.strip()` on a character list: drop whitespace from both
ends. -/
def py_strip_chars (cs : List Char) : List Char :=
  (((cs.dropWhile Char.isWhitespace).reverse).dropWhile
    Char.isWhitespace).reverse

/-- `tts_handler.py` lines 77-79: `.strip()`, drop `【…】` annotations,
collapse whitespace runs, `.strip()` again. -/
def strip_reply_text (content : String) : String :=
  let t1 := py_strip_chars content.data
  let t2 := strip_markers t1
  String.mk (py_strip_chars (collapse_ws t2))

/-- The message the AFTER_LLM handler receives: the reply text and the
conversation (stream) id, both with `""` as the falsy/absent value. -/
structure Message where
  llm_response_content : String
  stream_id : String

/-- The single call the handler makes to `auto_synthesize`: the stripped
text, the configured voice id, and the emotion override it passes
(`override_emotion=final_emotion`). -/
structure SynthCall where
  text : String
  voice_id : String
  override_emotion : Option String
deriving DecidableEq

/-- The observable outcome of one `MiniMaxTTSEventHandler.execute` run:
the `(success, continue, note)` prefix of the returned tuple, the reply
text after the run (blanked on a successful voice send), the pending-TTS
state after the run, and ghost fields recording the synthesis call made
(if any) and whether a voice message was sent. -/
structure HandlerOutput where
  success : Bool
  continue_flow : Bool
  note : Option String
  out_content : String
  state : TTSState
  synth_call : Option SynthCall
  voice_sent : Bool

/-- `MiniMaxTTSEventHandler.execute` (`src/components/tts_handler.py` lines
38-128).  `rand` models the `random.random()` draw; `synth` models the
`auto_synthesize` call: `Except.error ()` an exception raised during
synthesis or sending (caught on line 126), `Except.ok r` a normal return
(`r = none` on synthesis failure).  The always-voice branch and the
tool-flag branch both consume the pending flag, so `consume_tts_pending`
runs exactly once whenever the content and stream-id guards pass. -/
def handler_execute (cfg : Config) (s : TTSState) (msg : Message)
    (rand : Rat) (synth : Except Unit (Option String)) : HandlerOutput :=
  if msg.llm_response_content = "" then
    ⟨true, true, some "无内容", msg.llm_response_content, s, none, false⟩
  else if msg.stream_id = "" then
    ⟨true, true, some "无 stream_id", msg.llm_response_content, s, none, false⟩
  else
    let consumed := consume_tts_pending s msg.stream_id
    let was_pending := consumed.1
    let pending_emotion := consumed.2.1
    let s1 := consumed.2.2
    let should_tts :=
      is_always_voice s msg.stream_id || was_pending ||
        decide (0 < cfg.random_voice_probability ∧
                rand < cfg.random_voice_probability)
    if should_tts = false then
      ⟨true, true, some "未触发TTS", msg.llm_response_content, s1, none, false⟩
    else
      let text := strip_reply_text msg.llm_response_content
      if text = "" then
        ⟨true, true, some "文本为空", msg.llm_response_content, s1, none, false⟩
      else if cfg.api_key = "" then
        ⟨true, true, some "未配置API Key", msg.llm_response_content, s1, none,
         false⟩
      else if cfg.voice_id = "" then
        ⟨true, true, some "未配置音色", msg.llm_response_content, s1, none,
         false⟩
      else
        let call : SynthCall := ⟨text, cfg.voice_id, pending_emotion⟩
        match synth with
        | .error _ =>
          ⟨true, true, some "出错", msg.llm_response_content, s1, some call,
           false⟩
        | .ok none =>
          ⟨true, true, some "合成失败", msg.llm_response_content, s1,
           some call, false⟩
        | .ok (some audio_path) =>
          if audio_path = "" then
            ⟨true, true, some "合成失败", msg.llm_response_content, s1,
             some call, false⟩
          else
            ⟨true, false, none, "", s1, some call, true⟩

/-- A configuration holding the schema defaults of
`src/core/config_schema.py` (used as the base of concrete witnesses). -/
def cfg_defaults : Config where
  api_key := ""
  voice_id := ""
  base_url := "https://api.minimaxi.com"
  group_id := ""
  model := "speech-2.8-hd"
  language_boost := "auto"
  output_format := "hex"
  emotion := ""
  text_normalization := false
  english_normalization := false
  latex_read := false
  trailing_pause := 1
  speed := 1
  vol := 1
  pitch := 0
  voice_modify_pitch := some 0
  voice_modify_intensity := some 0
  voice_modify_timbre := some 0
  sound_effects := ""
  sample_rate := 32000
  bitrate := 128000
  audio_format := "mp3"
  channel := 1
  stream_enabled := false
  max_retries := 3
  retry_delay := 1
  rate_limit_rpm := 60
  max_text_length := 10000
  async_enabled := false
  async_threshold := 5000
  timeout := 30
  pronunciation_dict := none
  audio_mix_url := ""
  audio_mix_start_time := 0
  audio_mix_end_time := -1
  audio_mix_volume := 3 / 10
  audio_mix_repeat := true
  random_voice_probability := 0

/-- A one-voice registry (with parsable timestamps). -/
def mgr_one_voice : MgrState :=
  ⟨[("MyVoice01", ⟨some 0, some 0⟩)], [("MyVoice01", ⟨some 0, some 0⟩)], 0⟩

/-- C2: `/list_voices` on a non-empty registry does NOT complete
successfully: `ListVoicesCommand.execute` calls
`mgr.check_unactivated_voices()` (`clone_commands.py` line 224), a method
`VoiceCloneManager` never defines (it defines `check_expired_voices`, which
is never called), so the command raises `AttributeError`, lands in the
`except` handler and reports failure — the expiry warning never appears. -/
theorem C2_list_voices_attribute_error :
    list_voices_execute mgr_one_voice
      = (false, "AttributeError: check_unactivated_voices")
    ∧ ("check_unactivated_voices" ∈ voice_clone_manager_methods) = False := by
  constructor
  · rfl
  · simp [voice_clone_manager_methods]

/-- C6: `auto_synthesize` dispatch — async iff async mode is enabled and the
text length strictly exceeds the threshold; otherwise streaming iff
streaming is enabled; otherwise synchronous.  In particular, with
`async_enabled`, threshold 100 and text length 150, the async path is chosen
regardless of `stream_enabled`. -/
theorem C6_auto_synthesize_mode_selection :
    (∀ (cfg : Config) (text : String),
      (choose_mode cfg text = SynthMode.async ↔
        (cfg.async_enabled = true ∧ text.length > cfg.async_threshold))
      ∧ (¬(cfg.async_enabled = true ∧ text.length > cfg.async_threshold) →
          (choose_mode cfg text = SynthMode.stream ↔
            cfg.stream_enabled = true))
      ∧ (¬(cfg.async_enabled = true ∧ text.length > cfg.async_threshold) →
          cfg.stream_enabled = false → choose_mode cfg text = SynthMode.sync))
    ∧ (∀ (cfg : Config) (text : String),
        cfg.async_enabled = true → cfg.async_threshold = 100 →
        text.length = 150 → choose_mode cfg text = SynthMode.async) := by
  constructor
  · intro cfg text
    refine ⟨?_, ?_, ?_⟩ <;> unfold choose_mode <;>
      split_ifs with h1 h2 <;> simp_all
  · intro cfg text ha ht hl
    unfold choose_mode
    rw [if_pos ⟨ha, by omega⟩]

/-- Witness for C6 at a concrete configuration and text. -/
theorem C6_witness :
    choose_mode
      { cfg_defaults with
          async_enabled := true, async_threshold := 100,
          stream_enabled := true }
      (String.mk (List.replicate 150 'a')) = SynthMode.async :=
  C6_auto_synthesize_mode_selection.2
    { cfg_defaults with
        async_enabled := true, async_threshold := 100,
        stream_enabled := true }
    (String.mk (List.replicate 150 'a')) rfl rfl (by simp [String.length])

/-- The `text` entry of the request body is the pause-processed text. -/
theorem jLookup_text_build (cfg : Config) (text voice_id : String)
    (o : Option String) :
    jLookup "text" (build_request_body cfg text voice_id o)
      = some (.s (processed_text cfg text)) := rfl

/-- C7: the request builder appends a trailing pause marker iff the
configured pause is strictly positive, and the marker is exactly
`<#`, the clamped duration to two decimals, `#>`; concretely `<#99.99#>`
for 150, `<#0.50#>` for 0.5, and nothing for nonpositive values. -/
theorem C7_trailing_pause_marker :
    ∀ (cfg : Config) (text voice_id : String) (o : Option String),
      (0 < cfg.trailing_pause →
        jLookup "text" (build_request_body cfg text voice_id o)
          = some (.s (text ++ "<#" ++ fmt2 (clampPause cfg.trailing_pause)
              ++ "#>")))
      ∧ (cfg.trailing_pause ≤ 0 →
        jLookup "text" (build_request_body cfg text voice_id o)
          = some (.s text))
      ∧ (cfg.trailing_pause = 150 →
        jLookup "text" (build_request_body cfg text voice_id o)
          = some (.s (text ++ "<#99.99#>")))
      ∧ (cfg.trailing_pause = 1 / 2 →
        jLookup "text" (build_request_body cfg text voice_id o)
          = some (.s (text ++ "<#0.50#>"))) := by
  intro cfg text voice_id o
  rw [jLookup_text_build]
  refine ⟨?_, ?_, ?_, ?_⟩
  · intro h
    unfold processed_text
    rw [if_pos h]
  · intro h
    unfold processed_text
    rw [if_neg (not_lt.mpr h)]
  · intro h
    have h99 : fmt2 (clampPause 150) = "99.99" := by
      have h1 : clampPause 150 = 9999 / 100 := by
        unfold clampPause
        rw [min_eq_left (by norm_num), max_eq_right (by norm_num)]
      have h2 : round ((9999 / 100 : Rat) * 100) = 9999 := by
        norm_num [round_eq]
      unfold fmt2
      rw [h1, h2]
      rfl
    unfold processed_text
    rw [h, if_pos (by norm_num), h99]
    simp [String.append_assoc]
  · intro h
    have h50 : fmt2 (clampPause (1 / 2)) = "0.50" := by
      have h1 : clampPause (1 / 2) = 1 / 2 := by
        unfold clampPause
        rw [min_eq_right (by norm_num), max_eq_right (by norm_num)]
      have h2 : round ((1 / 2 : Rat) * 100) = 50 := by
        norm_num [round_eq]
      unfold fmt2
      rw [h1, h2]
      rfl
    unfold processed_text
    rw [h, if_pos (by norm_num), h50]
    simp [String.append_assoc]

/-- Witness for C7 at pause 150. -/
theorem C7_witness :
    jLookup "text"
      (build_request_body { cfg_defaults with trailing_pause := 150 }
        "hi" "v1" none)
      = some (.s ("hi" ++ "<#99.99#>")) :=
  (C7_trailing_pause_marker { cfg_defaults with trailing_pause := 150 }
    "hi" "v1" none).2.2.1 rfl

/-- C9: `remove_voice` on an id absent from the registry returns `False` and
changes nothing — neither the in-memory registry nor the backing file, and
no save is attempted. -/
theorem C9_remove_voice_absent :
    ∀ (st : MgrState) (voice_id : String) (save_ok : Bool),
      st.voices.lookup voice_id = none →
      remove_voice st voice_id save_ok = (false, st) := by
  intro st voice_id save_ok h
  rw [remove_voice, if_pos (by simp [h])]

/-- Witness for C9: removing from a registry that lacks the id. -/
theorem C9_witness :
    remove_voice mgr_one_voice "OtherVoice" true = (false, mgr_one_voice) :=
  C9_remove_voice_absent mgr_one_voice "OtherVoice" true rfl

/-- C8: the pending-emotion map only carries entries for chats in the
pending set — true initially (all collections empty) and preserved by
`mark_tts_pending` (any emotion argument), `consume_tts_pending`,
`toggle_always_voice` and the tool's `enable=False` cancellation path.
(`is_tts_pending` and `is_always_voice` read the state without modifying
it, so they preserve every invariant trivially.) -/
theorem C8_pending_emotion_invariant :
    tts_invariant initial_tts_state
    ∧ ∀ (s : TTSState) (chat_id : String) (emotion : Option String),
        tts_invariant s →
        tts_invariant (mark_tts_pending s chat_id emotion)
        ∧ tts_invariant (consume_tts_pending s chat_id).2.2
        ∧ tts_invariant (toggle_always_voice s chat_id).2
        ∧ tts_invariant (cancel_tts_pending s chat_id) := by
  constructor
  · intro p hp
    simp [initial_tts_state] at hp
  · intro s chat_id emotion hinv
    refine ⟨?_, ?_, ?_, ?_⟩
    · unfold mark_tts_pending
      rcases emotion with _ | e
      all_goals dsimp only
      · intro p hp
        simp only [List.mem_filter, bne_iff_ne, ne_eq, decide_eq_true_eq]
          at hp
        exact Finset.mem_insert_of_mem (hinv p hp.1)
      · split_ifs with h
        · intro p hp
          simp only [List.mem_cons, List.mem_filter, bne_iff_ne, ne_eq,
            decide_eq_true_eq] at hp
          rcases hp with rfl | hp
          · exact Finset.mem_insert_self _ _
          · exact Finset.mem_insert_of_mem (hinv p hp.1)
        · intro p hp
          simp only [List.mem_filter, bne_iff_ne, ne_eq, decide_eq_true_eq]
            at hp
          exact Finset.mem_insert_of_mem (hinv p hp.1)
    · unfold consume_tts_pending
      split_ifs with h
      · intro p hp
        simp only [List.mem_filter, bne_iff_ne, ne_eq, decide_eq_true_eq]
          at hp
        exact Finset.mem_erase.mpr ⟨hp.2, hinv p hp.1⟩
      · exact hinv
    · unfold toggle_always_voice
      split_ifs with h
      · exact hinv
      · exact hinv
    · unfold cancel_tts_pending
      intro p hp
      simp only [List.mem_filter, bne_iff_ne, ne_eq, decide_eq_true_eq] at hp
      exact Finset.mem_erase.mpr ⟨hp.2, hinv p hp.1⟩

/-- Witness for C8: the invariant after a concrete `mark_tts_pending` on the
initial state. -/
theorem C8_witness :
    tts_invariant (mark_tts_pending initial_tts_state "chat1" (some "happy")) :=
  (C8_pending_emotion_invariant.2 initial_tts_state "chat1" (some "happy")
    (by decide)).1

/-- Counterexample to C5 as stated: with `max_retries = 0` the `for attempt
in range(1, max_retries + 1)` loop body never runs, so a service that would
answer with fatal code 1004 sees zero request attempts, not exactly one —
the claim's "for every value of max_retries" fails at 0. -/
theorem C5_counterexample :
    synthesize { cfg_defaults with api_key := "k", max_retries := 0 }
      "hi" "v1" none (fun _ => .ok 200 1004 none)
      = (none, ⟨0, []⟩) := rfl

/-- C5 (amended to `max_retries ≥ 1`): an HTTP-200 response carrying a fatal
status code (1004 or 1008) on the first attempt makes `synthesize` return
failure after exactly one request, with no retry and no backoff sleep. -/
theorem C5_fatal_short_circuit :
    ∀ (cfg : Config) (text voice_id : String) (o : Option String)
      (resp : Nat → AttemptResult) (code : Int) (audio : Option String),
      cfg.api_key ≠ "" → voice_id ≠ "" → 1 ≤ cfg.max_retries →
      code ∈ FATAL_ERROR_CODES → resp 1 = .ok 200 code audio →
      synthesize cfg text voice_id o resp = (none, ⟨1, []⟩) := by
  intro cfg text voice_id o resp code audio hk hv hm hcode hresp
  unfold synthesize
  rw [if_neg hk, if_neg hv]
  obtain ⟨m, hm2⟩ : ∃ m, cfg.max_retries = m + 1 :=
    ⟨cfg.max_retries - 1, by omega⟩
  rw [hm2]
  unfold synthesize_loop
  rw [hresp]
  simp only [FATAL_ERROR_CODES, List.mem_cons, List.not_mem_nil, or_false]
    at hcode
  rcases hcode with rfl | rfl <;>
    norm_num [FATAL_ERROR_CODES, RETRYABLE_ERROR_CODES]

/-- Witness for C5 at a concrete configuration and response. -/
theorem C5_witness :
    synthesize { cfg_defaults with api_key := "k", max_retries := 7 }
      "hi" "v1" none (fun _ => .ok 200 1008 none)
      = (none, ⟨1, []⟩) :=
  C5_fatal_short_circuit
    { cfg_defaults with api_key := "k", max_retries := 7 }
    "hi" "v1" none (fun _ => .ok 200 1008 none) 1008 none
    (by decide) (by decide) (by decide) (by decide) rfl

/-- C4: with `max_retries = 3` and a service answering every attempt with
HTTP 200 and a retryable status code (1001 or 1002), `synthesize` issues
exactly 3 attempts, returns failure, and sleeps `retry_delay * 2^(n-1)`
between attempts `n` and `n+1` (so `retry_delay`, then `retry_delay * 2`)
with no sleep after the final attempt. -/
theorem C4_retry_backoff_termination :
    ∀ (cfg : Config) (text voice_id : String) (o : Option String)
      (resp : Nat → AttemptResult),
      cfg.api_key ≠ "" → voice_id ≠ "" → cfg.max_retries = 3 →
      (∀ n, ∃ code audio, resp n = .ok 200 code audio ∧
        code ∈ RETRYABLE_ERROR_CODES) →
      synthesize cfg text voice_id o resp
        = (none, ⟨3, [cfg.retry_delay, cfg.retry_delay * 2]⟩) := by
  intro cfg text voice_id o resp hk hv hm hresp
  unfold synthesize
  rw [if_neg hk, if_neg hv, hm]
  obtain ⟨c1, a1, h1, hc1⟩ := hresp 1
  obtain ⟨c2, a2, h2, hc2⟩ := hresp 2
  obtain ⟨c3, a3, h3, hc3⟩ := hresp 3
  simp only [RETRYABLE_ERROR_CODES, List.mem_cons, List.not_mem_nil,
    or_false] at hc1 hc2 hc3
  rcases hc1 with rfl | rfl <;> rcases hc2 with rfl | rfl <;>
    rcases hc3 with rfl | rfl <;>
    simp [synthesize_loop, h1, h2, h3, hm, FATAL_ERROR_CODES,
      RETRYABLE_ERROR_CODES]

/-- Witness for C4 at a concrete configuration and response. -/
theorem C4_witness :
    synthesize { cfg_defaults with api_key := "k", retry_delay := 2 }
      "hi" "v1" none (fun _ => .ok 200 1001 none)
      = (none, ⟨3, [2, 4]⟩) := by
  have h := C4_retry_backoff_termination
    { cfg_defaults with api_key := "k", retry_delay := 2 }
    "hi" "v1" none (fun _ => .ok 200 1001 none)
    (by decide) (by decide) rfl
    (fun n => ⟨1001, none, rfl, by decide⟩)
  rw [h]
  norm_num

/-- The `voice_setting` entry of the request body. -/
theorem jLookup_voice_setting_build (cfg : Config) (text voice_id : String)
    (o : Option String) :
    jLookup "voice_setting" (build_request_body cfg text voice_id o)
      = some (.obj (voice_setting_fields cfg voice_id o)) := rfl

/-- The `emotion` entry of `voice_setting` is exactly the resolved emotion. -/
theorem jLookup_emotion_voice_setting (cfg : Config) (voice_id : String)
    (o : Option String) :
    jLookup "emotion" (voice_setting_fields cfg voice_id o)
      = (pyOrEmotion o cfg.emotion).map JVal.s := by
  unfold voice_setting_fields jLookup
  rcases hpe : pyOrEmotion o cfg.emotion with _ | e <;>
    simp only [hpe] <;> rfl

/-- `voice_setting` never carries the three normalization flags. -/
theorem voice_setting_no_normalization (cfg : Config) (voice_id : String)
    (o : Option String) :
    jLookup "text_normalization" (voice_setting_fields cfg voice_id o) = none
    ∧ jLookup "english_normalization" (voice_setting_fields cfg voice_id o)
        = none
    ∧ jLookup "latex_read" (voice_setting_fields cfg voice_id o) = none := by
  unfold voice_setting_fields jLookup
  rcases hpe : pyOrEmotion o cfg.emotion with _ | e <;>
    simp only [hpe] <;> exact ⟨rfl, rfl, rfl⟩

/-- The top level of the request body never carries an `emotion` entry. -/
theorem jLookup_emotion_top (cfg : Config) (text voice_id : String)
    (o : Option String) :
    jLookup "emotion" (build_request_body cfg text voice_id o) = none := by
  unfold build_request_body jLookup
  cases htn : cfg.text_normalization <;>
  cases hen : cfg.english_normalization <;>
  cases hlr : cfg.latex_read <;>
  cases hvm : (voice_modify_fields cfg).isEmpty <;>
  rcases hpd : cfg.pronunciation_dict with _ | j <;>
  simp [htn, hen, hlr, hvm, hpd, List.lookup] <;>
  cases j <;> simp [List.lookup]

/-- C3: with `text_normalization` configured true and an emotion present
(override or configured default), the built request body carries
`text_normalization` (and likewise `english_normalization` / `latex_read`
when truthy) as top-level fields and `emotion` inside `voice_setting`;
neither kind of field ever appears in the other position. -/
theorem C3_request_body_placement :
    ∀ (cfg : Config) (text voice_id : String) (o : Option String) (e : String),
      cfg.text_normalization = true →
      pyOrEmotion o cfg.emotion = some e →
      jLookup "text_normalization" (build_request_body cfg text voice_id o)
        = some (.b true)
      ∧ (cfg.english_normalization = true →
          jLookup "english_normalization"
            (build_request_body cfg text voice_id o) = some (.b true))
      ∧ (cfg.latex_read = true →
          jLookup "latex_read" (build_request_body cfg text voice_id o)
            = some (.b true))
      ∧ jLookup "voice_setting" (build_request_body cfg text voice_id o)
          = some (.obj (voice_setting_fields cfg voice_id o))
      ∧ jLookup "emotion" (voice_setting_fields cfg voice_id o)
          = some (.s e)
      ∧ jLookup "emotion" (build_request_body cfg text voice_id o) = none
      ∧ jLookup "text_normalization" (voice_setting_fields cfg voice_id o)
          = none
      ∧ jLookup "english_normalization" (voice_setting_fields cfg voice_id o)
          = none
      ∧ jLookup "latex_read" (voice_setting_fields cfg voice_id o) = none := by
  intro cfg text voice_id o e htn hpe
  refine ⟨?_, ?_, ?_, jLookup_voice_setting_build cfg text voice_id o, ?_,
    jLookup_emotion_top cfg text voice_id o,
    (voice_setting_no_normalization cfg voice_id o).1,
    (voice_setting_no_normalization cfg voice_id o).2.1,
    (voice_setting_no_normalization cfg voice_id o).2.2⟩
  · unfold build_request_body jLookup
    simp [htn, List.lookup]
  · intro hen
    unfold build_request_body jLookup
    simp [htn, hen, List.lookup]
  · intro hlr
    unfold build_request_body jLookup
    cases hen : cfg.english_normalization <;>
      simp [htn, hen, hlr, List.lookup]
  · rw [jLookup_emotion_voice_setting, hpe]
    rfl

/-- Witness for C3 at a concrete configuration. -/
theorem C3_witness :
    jLookup "text_normalization"
      (build_request_body
        { cfg_defaults with text_normalization := true, emotion := "happy" }
        "hi" "v1" none)
      = some (.b true)
    ∧ jLookup "emotion"
        (voice_setting_fields
          { cfg_defaults with text_normalization := true, emotion := "happy" }
          "v1" none)
      = some (.s "happy") :=
  ⟨(C3_request_body_placement
      { cfg_defaults with text_normalization := true, emotion := "happy" }
      "hi" "v1" none "happy" rfl rfl).1,
   (C3_request_body_placement
      { cfg_defaults with text_normalization := true, emotion := "happy" }
      "hi" "v1" none "happy" rfl rfl).2.2.2.2.1⟩

/-- After `consume_tts_pending`, the consumed chat is no longer pending. -/
theorem not_pending_after_consume (s : TTSState) (chat_id : String) :
    chat_id ∉ (consume_tts_pending s chat_id).2.2.pending := by
  unfold consume_tts_pending
  split_ifs with h
  · simp
  · simpa using h

/-- C10: whenever the post-generation handler runs with reply content and a
stream id, the pending flag for that conversation is consumed before any
synthesis is attempted, so it is clear afterwards on every path — text
fallback for empty stripped text, missing credentials, synthesis failure,
an exception during synthesis/sending, and the success path alike; a failed
voice attempt is not retried on the next reply. -/
theorem C10_pending_consumed_every_run :
    ∀ (cfg : Config) (s : TTSState) (msg : Message) (rand : Rat)
      (synth : Except Unit (Option String)),
      msg.llm_response_content ≠ "" → msg.stream_id ≠ "" →
      msg.stream_id ∉ (handler_execute cfg s msg rand synth).state.pending := by
  intro cfg s msg rand synth h1 h2
  have key := not_pending_after_consume s msg.stream_id
  rcases synth with u | r
  all_goals try rcases r with _ | p
  all_goals
    unfold handler_execute
  all_goals
    rw [if_neg h1, if_neg h2]
  all_goals
    dsimp only
  all_goals
    split_ifs <;> exact key

/-- Witness for C10: a concrete run (tool-flagged conversation, synthesis
failing) leaves the flag clear. -/
theorem C10_witness :
    "chat1" ∉ (handler_execute { cfg_defaults with api_key := "k" }
      (⟨{"chat1"}, [], ∅⟩ : TTSState) ⟨"你好", "chat1"⟩ 1
      (Except.ok none)).state.pending :=
  C10_pending_consumed_every_run { cfg_defaults with api_key := "k" }
    ⟨{"chat1"}, [], ∅⟩ ⟨"你好", "chat1"⟩ 1 (Except.ok none)
    (by decide) (by decide)

/-- `jSet` on one key leaves every other key's lookup unchanged. -/
theorem jLookup_jSet_ne (k k2 : String) (v : JVal)
    (fields : List (String × JVal)) (h : k ≠ k2) :
    jLookup k (jSet k2 v fields) = jLookup k fields := by
  induction fields with
  | nil => rfl
  | cons p rest ih =>
    rcases p with ⟨pk, pv⟩
    simp only [jLookup, jSet, List.map_cons] at ih ⊢
    by_cases hp : pk = k2
    · rw [if_pos (by simpa using hp)]
      subst hp
      rw [List.lookup_cons, List.lookup_cons]
      rw [beq_eq_false_iff_ne.mpr h]
      exact ih
    · rw [if_neg (by simpa using hp)]
      rw [List.lookup_cons, List.lookup_cons]
      by_cases hk : k = pk
      · subst hk
        simp
      · rw [beq_eq_false_iff_ne.mpr hk]
        exact ih

/-- Whatever strategy `auto_synthesize` picks, the sent body's
`voice_setting` is the one built by `_build_request_body`. -/
theorem jLookup_voice_setting_auto (cfg : Config) (text voice_id : String)
    (o : Option String) :
    jLookup "voice_setting" (auto_synthesize_body cfg text voice_id o)
      = some (.obj (voice_setting_fields cfg voice_id o)) := by
  unfold auto_synthesize_body
  cases hm : choose_mode cfg text <;> simp only [hm]
  · rw [jLookup_jSet_ne _ _ _ _ (by decide)]
    exact jLookup_voice_setting_build cfg text voice_id o
  · rw [jLookup_jSet_ne _ _ _ _ (by decide)]
    exact jLookup_voice_setting_build cfg (truncate_text cfg text) voice_id o
  · exact jLookup_voice_setting_build cfg (truncate_text cfg text) voice_id o

/-- C1 (amended): on the event-driven path, when the consumed pending flag
carries no LLM-supplied emotion, the configured `minimax.emotion` IS
consulted — `_build_request_body` falls back to it (`override_emotion or
get_config("minimax.emotion", None)`), so the request body's
`voice_setting` carries the configured emotion whenever it is non-empty,
and omits the field only when it is empty too. -/
theorem C1_event_emotion_uses_config_default :
    ∀ (cfg : Config) (s : TTSState) (msg : Message) (rand : Rat)
      (synth : Except Unit (Option String)) (call : SynthCall),
      s.emotions.lookup msg.stream_id = none →
      (handler_execute cfg s msg rand synth).synth_call = some call →
      call.override_emotion = none
      ∧ jLookup "voice_setting"
          (auto_synthesize_body cfg call.text call.voice_id
            call.override_emotion)
        = some (.obj (voice_setting_fields cfg call.voice_id
            call.override_emotion))
      ∧ jLookup "emotion"
          (voice_setting_fields cfg call.voice_id call.override_emotion)
        = (if cfg.emotion = "" then none else some (.s cfg.emotion)) := by
  intro cfg s msg rand synth call hemo hcall
  have hpe : (consume_tts_pending s msg.stream_id).2.1 = none := by
    unfold consume_tts_pending
    split_ifs with h
    · exact hemo
    · rfl
  have hoe : call.override_emotion = none := by
    rcases synth with u | r
    all_goals try rcases r with _ | p
    all_goals unfold handler_execute at hcall
    all_goals dsimp only at hcall
    all_goals split_ifs at hcall <;> (cases hcall <;> exact hpe)
  refine ⟨hoe, jLookup_voice_setting_auto cfg call.text call.voice_id
    call.override_emotion, ?_⟩
  rw [jLookup_emotion_voice_setting, hoe]
  unfold pyOrEmotion
  by_cases h : cfg.emotion = "" <;> simp [h]

/-- A configuration with credentials and the default emotion `happy` set. -/
def cfg_happy : Config :=
  { cfg_defaults with api_key := "k", voice_id := "v1", emotion := "happy" }

/-- Counterexample to C1 as stated: a tool-flagged conversation whose
pending flag carries no emotion, with `minimax.emotion = "happy"`
configured — the handler passes `override_emotion = None`, and the built
body's `voice_setting` nevertheless contains `emotion: "happy"`, because
the builder falls back to the configured default (the claim says the body
would contain no emotion field at all). -/
theorem C1_counterexample :
    (handler_execute cfg_happy (⟨{"chat1"}, [], ∅⟩ : TTSState)
      ⟨"你好", "chat1"⟩ 1 (Except.ok (some "a.mp3"))).synth_call
      = some ⟨"你好", "v1", none⟩
    ∧ jLookup "emotion" (voice_setting_fields cfg_happy "v1" none)
      = some (.s "happy") := ⟨rfl, rfl⟩

/-- Witness for the amended C1, applied at the concrete run of the
counterexample scenario. -/
theorem C1_witness :
    jLookup "emotion" (voice_setting_fields cfg_happy "v1" none)
      = (if cfg_happy.emotion = "" then none
         else some (.s cfg_happy.emotion)) :=
  (C1_event_emotion_uses_config_default cfg_happy ⟨{"chat1"}, [], ∅⟩
    ⟨"你好", "chat1"⟩ 1 (Except.ok (some "a.mp3")) ⟨"你好", "v1", none⟩
    rfl rfl).2.2
